import Mathlib

/-!
Shallow embedding of the conversation-orchestration and retrieval-augmented
response pipeline of the THERAPY-BOT repository
(tera-bot-api/functions/src/orquestador/...), together with theorems settling
the specification claims about it.

External collaborators (the chromadb client library, the agents runtime
library with its SQLiteSession) are modelled at their interface boundary;
each such definition carries a doc comment saying what it models.
-/

namespace TherapyBot

/-! ## Knowledge store state model (ChromaDB, chroma.py) -/

/-- One stored document of a knowledge collection: id, text and metadata. -/
structure DocEntry where
  id : String
  text : String
  metadata : List (String × String)
  deriving DecidableEq, Repr

/-- Errors surfaced by knowledge-store operations. -/
inductive ChromaError where
  | invalidArgument
  | collectionNotFound
  deriving DecidableEq, Repr

/-- The knowledge store: an association list from collection name to its documents. -/
abbrev ChromaStore := List (String × List DocEntry)

/-- Whether a collection of the given name exists in the store. -/
def hasCollection (st : ChromaStore) (name : String) : Bool :=
  st.any (fun c => c.1 == name)

/-- Embeds ChromaService._get_or_create_collection: idempotently obtains the
named collection, creating it empty (with the fixed cosine/HNSW configuration,
not modelled further) when absent. -/
def ensureCollection (st : ChromaStore) (name : String) : ChromaStore :=
  if hasCollection st name then st else st ++ [(name, [])]

/-- Applies a function to the documents of the named collection, leaving every
other collection unchanged. -/
def updateCollection (st : ChromaStore) (name : String)
    (f : List DocEntry → List DocEntry) : ChromaStore :=
  st.map (fun c => if c.1 == name then (c.1, f c.2) else c)

/-- Inserts or overwrites one document by id in a document list. -/
def upsertDocById (docs : List DocEntry) (d : DocEntry) : List DocEntry :=
  if docs.any (fun x => x.id == d.id) then
    docs.map (fun x => if x.id == d.id then d else x)
  else
    docs ++ [d]

/-- Modelled from the spec: Collection.upsert of the external chromadb library
(not part of this repository) requires the documents, metadatas and ids arrays
to have equal length, failing with InvalidArgument otherwise ("all three arrays
must be equal length or the call fails with InvalidArgument"); on success it
inserts or overwrites documents by id. The error case writes nothing. -/
def collectionUpsert (st : ChromaStore) (name : String) (texts : List String)
    (metadatas : List (List (String × String))) (ids : List String) :
    Option ChromaError × ChromaStore :=
  if texts.length = metadatas.length ∧ texts.length = ids.length then
    (none,
     updateCollection st name (fun docs =>
       ((ids.zip (texts.zip metadatas)).foldl
         (fun acc p => upsertDocById acc ⟨p.1, p.2.1, p.2.2⟩) docs)))
  else
    (some ChromaError.invalidArgument, st)

/-- Modelled from the spec: Collection.add of the external chromadb library
(not part of this repository) requires the three arrays to have equal length,
failing with InvalidArgument otherwise, and inserts the documents by id. -/
def collectionAdd (st : ChromaStore) (name : String) (texts : List String)
    (metadatas : List (List (String × String))) (ids : List String) :
    Option ChromaError × ChromaStore :=
  if texts.length = metadatas.length ∧ texts.length = ids.length then
    (none,
     updateCollection st name (fun docs =>
       ((ids.zip (texts.zip metadatas)).foldl
         (fun acc p => upsertDocById acc ⟨p.1, p.2.1, p.2.2⟩) docs)))
  else
    (some ChromaError.invalidArgument, st)

/-- Embeds ChromaService.add_texts (chroma.py): `if not texts: return` is an
early no-op before any store contact; otherwise it gets-or-creates the
collection and adds the documents. The first component is the raised error, if
any; the second is the store state afterwards. -/
def ChromaService.add_texts (texts : List String) (name_collection : String)
    (metadatas : List (List (String × String))) (ids : List String)
    (st : ChromaStore) : Option ChromaError × ChromaStore :=
  if texts = [] then
    (none, st)
  else
    collectionAdd (ensureCollection st name_collection) name_collection
      texts metadatas ids

/-- Embeds ChromaService.upsert_texts (chroma.py): `if not texts: return` is an
early no-op before any store contact; otherwise it gets-or-creates the
collection and upserts the documents. -/
def ChromaService.upsert_texts (texts : List String) (name_collection : String)
    (metadatas : List (List (String × String))) (ids : List String)
    (st : ChromaStore) : Option ChromaError × ChromaStore :=
  if texts = [] then
    (none, st)
  else
    collectionUpsert (ensureCollection st name_collection) name_collection
      texts metadatas ids

/-- Modelled from the spec: delete_collection of the external chromadb client
(not part of this repository) removes the named collection and raises a
not-found error when no collection of that name exists. -/
def clientDeleteCollection (st : ChromaStore) (name : String) :
    Option ChromaError × ChromaStore :=
  if hasCollection st name then
    (none, st.filter (fun c => c.1 != name))
  else
    (some ChromaError.collectionNotFound, st)

/-- Embeds ChromaService.reset_collection (chroma.py): first
`self.client.delete_collection(name_collection)`, then
`self._get_or_create_collection(name_collection)`; an error raised by the
delete step propagates and the recreation step is never reached. -/
def ChromaService.reset_collection (name_collection : String)
    (st : ChromaStore) : Option ChromaError × ChromaStore :=
  match clientDeleteCollection st name_collection with
  | (some e, st1) => (some e, st1)
  | (none, st1) => (none, ensureCollection st1 name_collection)

/-! ## Knowledge-store query and the Retrieval Tool
(agente_examenes_salud_mental.py) -/

/-- The result of a knowledge-store query. Per the store contract, `documents`
holds one list of matching document texts per query text, ordered by ascending
distance (descending similarity). -/
structure QueryResult where
  documents : List (List String)
  deriving DecidableEq, Repr

/-- The behaviour of the underlying collection query: collection name, query
texts and the number of requested results determine the returned documents. -/
abbrev CollectionQueryFn := String → List String → Nat → QueryResult

/-- Embeds ChromaService.query (chroma.py): delegates to the underlying
collection query and returns its result unchanged (the intervening lines only
log). -/
def ChromaService.query (collectionQuery : CollectionQueryFn)
    (name_collection : String) (query_texts : List String)
    (n_results : Nat) : QueryResult :=
  collectionQuery name_collection query_texts n_results

/-- The fixed collection queried by the Retrieval Tool:
ChromaCollections.EXAMENES_DE_SALUD_MENTAL.value (enums.py). -/
def examenesSaludMentalCollection : String := "mental_health_screenings"

/-- Embeds buscar_conocimiento_con_RAG (agente_examenes_salud_mental.py):
queries the fixed screenings collection with the single query text and
n_results = 3; if `results['documents']` is truthy (a non-empty list) it joins
`results['documents'][0]` with blank lines under the fixed header, otherwise it
returns the fixed sentinel. -/
def buscar_conocimiento_con_RAG (collectionQuery : CollectionQueryFn)
    (query : String) : String :=
  let results :=
    ChromaService.query collectionQuery examenesSaludMentalCollection [query] 3
  match results.documents with
  | [] => "No se encontró información relevante."
  | d0 :: _ => "Información encontrada:\n" ++ String.intercalate "\n\n" d0

/-! ## Conversation history store (messages.py, SQLiteSession) -/

/-- The pair addressing one durable conversation log: the session identifier
and the database file it lives in (the two constructor arguments of
SQLiteSession). -/
structure SessionHandle where
  sessionId : String
  dbPath : String
  deriving DecidableEq, Repr

/-- The role of one history record (spec data model: user/assistant/tool). -/
inductive Role where
  | user
  | assistant
  | tool
  deriving DecidableEq, Repr

/-- One record of the conversation history. -/
structure TurnRecord where
  role : Role
  content : String
  deriving DecidableEq, Repr

/-- An open history session: the handle addressing its log and the ordered
record list currently persisted there. -/
structure Session where
  handle : SessionHandle
  items : List TurnRecord
  deriving DecidableEq, Repr

/-- Embeds Message.create_and_get_session_id (messages.py):
`session_id = f"session_{user_id}"` and
`SQLiteSession(session_id, "conversations.db")` — the returned session
addresses the log identified by this fixed-prefix key in the fixed file. -/
def Message.create_and_get_session_id (user_id : String) : SessionHandle :=
  { sessionId := "session_" ++ user_id, dbPath := "conversations.db" }

/-! ## Specialized responders and the principal agent
(agente_principal.py, agente_examenes_salud_mental.py) -/

/-- One configured conversational agent: name, instruction text and the names
of its bound tools. -/
structure AgentDef where
  name : String
  instructions : String
  toolNames : List String
  deriving DecidableEq, Repr

/-- Embeds agente_de_examenes_salud_mental (agente_examenes_salud_mental.py):
the screenings responder with the Retrieval Tool bound. -/
def agente_de_examenes_salud_mental : AgentDef :=
  { name := "AgenteDeExamenesDeSaludMental",
    instructions := "Eres un agente que proporciona respuestas sobre exámenes de salud mental.\n    Usa buscar_conocimiento_con_RAG.\n    Siempre basa tus respuestas en la información recuperada. Si no hay información relevante, indícalo.\n    Responde de manera clara y concisa.",
    toolNames := ["buscar_conocimiento_con_RAG"] }

/-- Modelled from the spec: agente_de_respuestas_salud_mental — its source
module is imported by agente_principal.py but is not under src/. Per the spec
it is the response-template responder, an independently configured agent with
a fixed instruction text and no shared mutable state. -/
def agente_de_respuestas_salud_mental : AgentDef :=
  { name := "AgenteDeRespuestasDeSaludMental",
    instructions := "Responder de plantillas de respuesta: movimientos conversacionales estructurados por etapa.",
    toolNames := [] }

/-- Modelled from the spec: agente_de_salud_mental_coloquial — its source
module is imported by agente_principal.py but is not under src/. Per the spec
it is the colloquial-expression responder. -/
def agente_de_salud_mental_coloquial : AgentDef :=
  { name := "AgenteDeSaludMentalColoquial",
    instructions := "Responder de expresiones coloquiales: mapea frases informales a posibles preocupaciones clínicas.",
    toolNames := [] }

/-- Modelled from the spec: agente_de_transtornos_salud_mental — its source
module is imported by agente_principal.py but is not under src/. Per the spec
it is the disorder-information responder. -/
def agente_de_transtornos_salud_mental : AgentDef :=
  { name := "AgenteDeTranstornosDeSaludMental",
    instructions := "Responder de transtornos: responde preguntas sobre condiciones de salud mental.",
    toolNames := [] }

/-- One entry of the principal agent handoff list: either an agent passed
positionally (no handoff wrapper) or an agent wrapped by `handoff(...)`. -/
inductive HandoffEntry where
  | positional (agent : AgentDef)
  | wrapped (agent : AgentDef)
  deriving DecidableEq, Repr

/-- Whether a handoff-list entry is wrapped by `handoff(...)`. -/
def HandoffEntry.isWrapped : HandoffEntry → Bool
  | HandoffEntry.positional _ => false
  | HandoffEntry.wrapped _ => true

/-- The configuration of the assembled principal agent. -/
structure PrincipalAgentConfig where
  name : String
  model : String
  instructions : String
  handoffs : List HandoffEntry
  deriving DecidableEq, Repr

/-- Modelled from the spec: the principal system prompt is built in
prompt_agente_principal.py from RECOMMENDED_PROMPT_PREFIX of the external
agents library plus fixed identity, capability, style, safety-boundary,
crisis-protocol and response-format sections. The spec declares exact prompt
wording a non-goal, so it is represented as one fixed configuration string. -/
def PromptAgentePrincipal.SYSTEM_PROMPT : String :=
  "SYSTEM_PROMPT_DEL_AGENTE_PRINCIPAL"

/-- Embeds PsychologyClinicAgent.agentPsychology (agente_principal.py): builds
the principal agent "TerapyBot" with the fixed model and system prompt and the
handoff list
`[agente_respuestas_salud_mental, handoff(agente_coloquial),
handoff(agente_transtornos), handoff(agente_examenes)]` — the first entry
passed positionally, the rest wrapped. -/
def PsychologyClinicAgent.agentPsychology (user_id user_message : String) :
    PrincipalAgentConfig :=
  { name := "TerapyBot",
    model := "gpt-5-mini",
    instructions := PromptAgentePrincipal.SYSTEM_PROMPT,
    handoffs :=
      [HandoffEntry.positional agente_de_respuestas_salud_mental,
       HandoffEntry.wrapped agente_de_salud_mental_coloquial,
       HandoffEntry.wrapped agente_de_transtornos_salud_mental,
       HandoffEntry.wrapped agente_de_examenes_salud_mental] }

/-! ## Orchestrator (orquestador.py) -/

/-- The environment of one orchestration call: the effects of the external
collaborators. `openSession` opens the durable log addressed by a handle
(SQLiteSession construction; may fail). `assembleAgent` is the agent-assembly
step (may fail). `runTurn` is the external agent runtime: on success it yields
the final output and the records it appended to the session (spec 4.5: turns
are appended by the agent runtime as a side effect). `getItemsFailure` gives
the storage failure, if any, of reading a session's items. -/
structure OrchEnv where
  openSession : SessionHandle → Except String Session
  assembleAgent : String → String → Except String PrincipalAgentConfig
  runTurn : PrincipalAgentConfig → String → Session →
    Except String (String × List TurnRecord)
  getItemsFailure : Session → Option String

/-- Modelled from the spec: SQLiteSession.get_items of the external agents
library returns the session's full ordered item list; a storage failure raises
instead. -/
def Session.get_items (env : OrchEnv) (s : Session) :
    Except String (List TurnRecord) :=
  match env.getItemsFailure s with
  | some e => Except.error e
  | none => Except.ok s.items

/-- The orchestrator state: constructor arguments plus the lazily created
history session (`self.history`, initially None). -/
structure Orquestador where
  user_id : String
  message : String
  history : Option Session

/-- Embeds Orquestador._create_history_session (orquestador.py): derives the
session handle via Message.create_and_get_session_id and opens it; the
try/except re-raises, so a failure propagates unchanged. -/
def Orquestador._create_history_session (env : OrchEnv) (user_id : String) :
    Except String Session :=
  env.openSession (Message.create_and_get_session_id user_id)

/-- Embeds Orquestador._get_all_history (orquestador.py): returns `[]` when
`self.history is None`, otherwise `await self.history.get_items()`. -/
def Orquestador._get_all_history (env : OrchEnv) (o : Orquestador)
    (user_id : String) : Except String (List TurnRecord) :=
  match o.history with
  | none => Except.ok []
  | some s => Session.get_items env s

/-- Step 1 of generate_response: if `self.history is None`, create it,
otherwise keep the existing session. -/
def Orquestador.sessionStep (env : OrchEnv) (o : Orquestador) :
    Except String Session :=
  match o.history with
  | none => Orquestador._create_history_session env o.user_id
  | some s => Except.ok s

/-- The body of the `try` block of Orquestador.generate_response: obtain the
session, assemble the agent, run the turn (the runtime appends the turn's
records to the session), then re-read the full history from the updated
session via _get_all_history. -/
def Orquestador.generateBody (env : OrchEnv) (o : Orquestador) :
    Except String (String × List TurnRecord) :=
  match Orquestador.sessionStep env o with
  | Except.error e => Except.error e
  | Except.ok session =>
    match env.assembleAgent o.user_id o.message with
    | Except.error e => Except.error e
    | Except.ok agent =>
      match env.runTurn agent o.message session with
      | Except.error e => Except.error e
      | Except.ok (finalOutput, appended) =>
        let sessionAfter : Session :=
          { session with items := session.items ++ appended }
        match Orquestador._get_all_history env
            { o with history := some sessionAfter } o.user_id with
        | Except.error e => Except.error e
        | Except.ok historial => Except.ok (finalOutput, historial)

/-- A value of the returned dictionary: a string or a record list. -/
inductive PyValue where
  | str (s : String)
  | items (l : List TurnRecord)
  deriving DecidableEq, Repr

/-- The dictionary returned by generate_response, as key-value pairs. -/
abbrev ResponseDict := List (String × PyValue)

/-- Embeds Orquestador.generate_response (orquestador.py): runs the try-block
body; on success returns `{"respuesta": ..., "historial": ...}`, and any
exception raised by the steps is caught and converted to
`{"error": f"Error procesando la solicitud: {e}"}`. -/
def Orquestador.generate_response (env : OrchEnv) (o : Orquestador) :
    ResponseDict :=
  match Orquestador.generateBody env o with
  | Except.ok (respuesta, historial) =>
    [("respuesta", PyValue.str respuesta), ("historial", PyValue.items historial)]
  | Except.error e =>
    [("error", PyValue.str ("Error procesando la solicitud: " ++ e))]

/-! ## Concrete instances used by the witness theorems -/

/-- A fixed query behaviour: every query returns the two documents
"docA" and "docB" for the single query text. -/
def cqW : CollectionQueryFn := fun _ _ _ => { documents := [["docA", "docB"]] }

/-- The records the runtime appends in the concrete environment below. -/
def recsW : List TurnRecord :=
  [{ role := Role.user, content := "hola" },
   { role := Role.assistant, content := "respuestaW" }]

/-- A concrete orchestration environment in which every step succeeds: opening
a session yields an empty log, assembly builds the real principal agent, the
runtime answers "respuestaW" and appends `recsW`, and history reads succeed. -/
def envW : OrchEnv :=
  { openSession := fun h => Except.ok { handle := h, items := [] },
    assembleAgent := fun uid msg =>
      Except.ok (PsychologyClinicAgent.agentPsychology uid msg),
    runTurn := fun _ _ _ => Except.ok ("respuestaW", recsW),
    getItemsFailure := fun _ => none }

/-- A concrete orchestrator instance with no history session created yet. -/
def orqW : Orquestador := { user_id := "u1", message := "hola", history := none }

/-- The session `envW` opens for user "u1". -/
def sessionW : Session :=
  { handle := Message.create_and_get_session_id "u1", items := [] }

/-! ## Theorems for the claims -/

/-- C1 (code evaluated at the failing input): when the knowledge store returns
zero documents for the single query text — per the store contract one (empty)
document list per query text, i.e. `documents = [[]]` — the tool returns the
bare "Información encontrada:" header with empty context, because the code
tests the truthiness of the outer per-query list, and not the sentinel
"No se encontró información relevante." (the spec's "No relevant information
found."). -/
theorem rag_zero_documents_header_not_sentinel :
    buscar_conocimiento_con_RAG (fun _ _ _ => { documents := [[]] }) "insomnio" =
      "Información encontrada:\n" ∧
    buscar_conocimiento_con_RAG (fun _ _ _ => { documents := [[]] }) "insomnio" ≠
      "No se encontró información relevante." := by
  constructor
  · rfl
  · decide

/-- C2: for every environment behaviour and every orchestrator state,
generate_response returns a plain dictionary and never propagates an
exception: whenever the try-block body raises (history-session creation, agent
assembly, the runtime turn or the history re-read), the result is the
single-key dictionary `{"error": "Error procesando la solicitud: " + e}`;
otherwise it is the success dictionary. -/
theorem generate_response_never_propagates (env : OrchEnv) (o : Orquestador) :
    (∃ e, Orquestador.generateBody env o = Except.error e ∧
      Orquestador.generate_response env o =
        [("error", PyValue.str ("Error procesando la solicitud: " ++ e))]) ∨
    (∃ r h, Orquestador.generateBody env o = Except.ok (r, h) ∧
      Orquestador.generate_response env o =
        [("respuesta", PyValue.str r), ("historial", PyValue.items h)]) := by
  cases hb : Orquestador.generateBody env o with
  | error e =>
    exact Or.inl ⟨e, rfl, by simp [Orquestador.generate_response, hb]⟩
  | ok p =>
    obtain ⟨r, h⟩ := p
    exact Or.inr ⟨r, h, rfl, by simp [Orquestador.generate_response, hb]⟩

/-- C3: whenever the store's query for the given text against the fixed
screenings collection with topK = 3 yields a non-empty document list, the tool
returns exactly the fixed header followed by the returned documents joined in
the store's order by a blank-line separator; moreover the tool's output
depends only on the store's answer at that one point (collection
"mental_health_screenings", the single query text, topK = 3), so it queries
exactly that fixed collection and reorders nothing. -/
theorem rag_found_formats_in_store_order (cq cq2 : CollectionQueryFn)
    (q : String) (d0 : List String) (rest : List (List String))
    (h : (cq examenesSaludMentalCollection [q] 3).documents = d0 :: rest)
    (hne : d0 ≠ [])
    (h2 : cq2 examenesSaludMentalCollection [q] 3 =
      cq examenesSaludMentalCollection [q] 3) :
    buscar_conocimiento_con_RAG cq q =
      "Información encontrada:\n" ++ String.intercalate "\n\n" d0 ∧
    buscar_conocimiento_con_RAG cq2 q = buscar_conocimiento_con_RAG cq q := by
  constructor
  · simp only [buscar_conocimiento_con_RAG, ChromaService.query, h]
  · simp only [buscar_conocimiento_con_RAG, ChromaService.query, h2]

/-- Witness for C3 at a concrete store answering with two documents. -/
theorem rag_found_formats_in_store_order_witness :
    buscar_conocimiento_con_RAG cqW "ansiedad" =
      "Información encontrada:\n" ++ String.intercalate "\n\n" ["docA", "docB"] ∧
    buscar_conocimiento_con_RAG cqW "ansiedad" =
      buscar_conocimiento_con_RAG cqW "ansiedad" :=
  rag_found_formats_in_store_order cqW cqW "ansiedad" ["docA", "docB"] []
    rfl (by decide) rfl

/-- C4: on every successful turn — the session step, agent assembly and the
runtime turn succeed, and the history re-read succeeds — generate_response
returns under "historial" the complete item list of the session at return
time, namely the pre-turn items followed by the records the runtime appended
for the just-completed turn. -/
theorem generate_response_returns_full_history (env : OrchEnv)
    (o : Orquestador) (s : Session) (ag : PrincipalAgentConfig)
    (out : String) (appended : List TurnRecord)
    (h1 : Orquestador.sessionStep env o = Except.ok s)
    (h2 : env.assembleAgent o.user_id o.message = Except.ok ag)
    (h3 : env.runTurn ag o.message s = Except.ok (out, appended))
    (h4 : env.getItemsFailure { s with items := s.items ++ appended } = none) :
    Orquestador.generate_response env o =
      [("respuesta", PyValue.str out),
       ("historial", PyValue.items (s.items ++ appended))] := by
  simp [Orquestador.generate_response, Orquestador.generateBody, h1, h2, h3,
    Orquestador._get_all_history, Session.get_items, h4]

/-- Witness for C4 in the concrete all-success environment. -/
theorem generate_response_returns_full_history_witness :
    Orquestador.generate_response envW orqW =
      [("respuesta", PyValue.str "respuestaW"),
       ("historial", PyValue.items (sessionW.items ++ recsW))] :=
  generate_response_returns_full_history envW orqW sessionW
    (PsychologyClinicAgent.agentPsychology "u1" "hola") "respuestaW" recsW
    rfl rfl rfl rfl

/-- C5: the session key is the fixed prefix "session_" concatenated with the
user id, and the database file is fixed, so any two calls of
Message.create_and_get_session_id with the same user id yield handles
addressing the same underlying log (same session identifier, same file). -/
theorem session_key_fixed_prefix_same_log :
    ∃ p db : String, ∀ u : String,
      Message.create_and_get_session_id u =
        { sessionId := p ++ u, dbPath := db } :=
  ⟨"session_", "conversations.db", fun _ => rfl⟩

/-- Counterexample for C6 as stated: with texts = [] and ids of length 1 the
three arrays do not all have equal length, yet upsert_texts returns as a
silent no-op (no InvalidArgument) because of the early empty-texts return. -/
theorem upsert_texts_length_mismatch_counterexample :
    (([] : List String).length ≠ (["doc-1"] : List String).length) ∧
    ChromaService.upsert_texts [] "mental_health_screenings" [[("k", "v")]]
      ["doc-1"] [] = (none, ([] : ChromaStore)) := by
  constructor
  · decide
  · rfl

/-- C6 (amended): for every call with a non-empty texts list in which the
three arrays do not all have equal length, upsert_texts fails with
InvalidArgument and writes no document (the store afterwards is at most the
get-or-created empty collection). -/
theorem upsert_texts_mismatch_raises_invalid_argument (texts : List String)
    (name_collection : String) (metadatas : List (List (String × String)))
    (ids : List String) (st : ChromaStore)
    (hne : texts ≠ [])
    (hlen : ¬ (texts.length = metadatas.length ∧ texts.length = ids.length)) :
    ChromaService.upsert_texts texts name_collection metadatas ids st =
      (some ChromaError.invalidArgument, ensureCollection st name_collection) := by
  simp [ChromaService.upsert_texts, hne, collectionUpsert, hlen]

/-- Witness for the amended C6 at a concrete mismatched call. -/
theorem upsert_texts_mismatch_raises_invalid_argument_witness :
    ChromaService.upsert_texts ["texto"] "mental_health_screenings" [] [] [] =
      (some ChromaError.invalidArgument,
       ensureCollection [] "mental_health_screenings") :=
  upsert_texts_mismatch_raises_invalid_argument ["texto"]
    "mental_health_screenings" [] [] [] (by decide) (by decide)

/-- C7: for every assembled principal agent, the handoff list starts with
exactly one positional (default/fallback) responder and every remaining entry
is wrapped as an explicit handoff target; the number of unwrapped entries in
the whole list is exactly one. -/
theorem agentPsychology_exactly_one_default (uid msg : String) :
    (∃ a rest,
      (PsychologyClinicAgent.agentPsychology uid msg).handoffs =
        HandoffEntry.positional a :: rest ∧
      rest.all HandoffEntry.isWrapped = true) ∧
    (PsychologyClinicAgent.agentPsychology uid msg).handoffs.countP
      (fun e => !HandoffEntry.isWrapped e) = 1 :=
  ⟨⟨agente_de_respuestas_salud_mental,
    [HandoffEntry.wrapped agente_de_salud_mental_coloquial,
     HandoffEntry.wrapped agente_de_transtornos_salud_mental,
     HandoffEntry.wrapped agente_de_examenes_salud_mental], rfl, rfl⟩, rfl⟩

/-- C8: calling add_texts or upsert_texts with an empty texts list is a
no-op for every collection name, metadatas, ids and store state: no error is
raised and the store is returned unchanged (no collection created or
modified). -/
theorem add_upsert_empty_texts_noop (name_collection : String)
    (metadatas : List (List (String × String))) (ids : List String)
    (st : ChromaStore) :
    ChromaService.add_texts [] name_collection metadatas ids st = (none, st) ∧
    ChromaService.upsert_texts [] name_collection metadatas ids st = (none, st) :=
  ⟨rfl, rfl⟩

/-- C9: reset_collection deletes before recreating, so on every store state in
which the named collection does not exist, the delete step raises and the call
returns the not-found error with the store unchanged — in particular the
collection is not created; the operation is not idempotent on absent
collections. -/
theorem reset_collection_absent_raises (name_collection : String)
    (st : ChromaStore) (h : hasCollection st name_collection = false) :
    ChromaService.reset_collection name_collection st =
      (some ChromaError.collectionNotFound, st) := by
  simp [ChromaService.reset_collection, clientDeleteCollection, h]

/-- Witness for C9 on the empty store. -/
theorem reset_collection_absent_raises_witness :
    ChromaService.reset_collection "mental_health_screenings" [] =
      (some ChromaError.collectionNotFound, ([] : ChromaStore)) :=
  reset_collection_absent_raises "mental_health_screenings" [] rfl

/-- C10: whenever no history session object has been created
(`self.history is None`), _get_all_history returns the empty list without
raising, and its result does not depend on the environment or the user id —
no storage is read. -/
theorem get_all_history_no_session_empty (env env2 : OrchEnv)
    (o : Orquestador) (uid uid2 : String) (h : o.history = none) :
    Orquestador._get_all_history env o uid = Except.ok [] ∧
    Orquestador._get_all_history env o uid =
      Orquestador._get_all_history env2 o uid2 := by
  simp [Orquestador._get_all_history, h]

/-- Witness for C10 on a fresh orchestrator instance. -/
theorem get_all_history_no_session_empty_witness :
    Orquestador._get_all_history envW orqW "u1" = Except.ok [] ∧
    Orquestador._get_all_history envW orqW "u1" =
      Orquestador._get_all_history envW orqW "u2" :=
  get_all_history_no_session_empty envW envW orqW "u1" "u2" rfl

end TherapyBot
